import Mathlib

/-!
Verification development for the field-staff tracking subsystem
(`services/unified_tracking.py` and `routers/unified_tracking.py`).

Modelling conventions:
* Database rows are Lean structures; each table is a `List` inside `Store`.
* SQL numeric columns and Python floats that only ever undergo exact
  arithmetic (comparisons, sums, 2-decimal rounding) are modelled as `ℚ`.
  The transcendental great-circle computation (`haversine_distance`) is
  modelled over `ℝ`; the value stored on a visit row is the exact
  2-decimal rounding of that real number.
* Python `round(x, 2)` is modelled as round-to-nearest hundredth
  (`round2` on `ℚ`, `round2R : ℝ → ℚ`).  Python uses round-half-to-even;
  the two conventions agree away from exact ties, and every property
  proved below is evaluated away from ties.
* `raise`/exception control flow is modelled with `Except TrackErr`;
  an `Except.error` result carries no new store, mirroring the fact that
  the Python transaction is rolled back / never flushed on that path.
* Timestamps (`datetime.utcnow()`) are abstract `ℤ` instants passed in by
  the caller; calendar days (`date.today()`) are abstract `ℤ` day numbers.
-/

namespace UnifiedTracking

/-- Session lifecycle status (`"ACTIVE"` / `"ENDED"` strings in the source). -/
inductive SessionStatus where
  | active
  | ended
deriving DecidableEq, Repr

/-- Error taxonomy of the tracking subsystem (ValueError / HTTPException
signals in the source). -/
inductive TrackErr where
  | invalidCoordinates
  | sessionAlreadyEnded
  | noActiveSession
  | rateLimited
  | forbidden
deriving DecidableEq, Repr

/-- Equality on `Except` results is decidable componentwise; used to evaluate
concrete operation results in witnesses. -/
instance {ε α : Type} [DecidableEq ε] [DecidableEq α] : DecidableEq (Except ε α) :=
  fun a b =>
    match a, b with
    | .error e, .error f =>
      if h : e = f then .isTrue (congrArg Except.error h)
      else .isFalse (fun hc => h (by injection hc))
    | .ok x, .ok y =>
      if h : x = y then .isTrue (congrArg Except.ok h)
      else .isFalse (fun hc => h (by injection hc))
    | .error _, .ok _ => .isFalse (fun hc => Except.noConfusion hc)
    | .ok _, .error _ => .isFalse (fun hc => Except.noConfusion hc)

/-- A row of the `users` table (only the columns the tracking subsystem reads). -/
structure UserRec where
  id : ℕ
  full_name : String
  username : String
  photograph : Option String
  phone : String
  email : String
  role : String
deriving DecidableEq, Repr

/-- A row of `tracking_sessions`. -/
structure TSession where
  id : ℕ
  user_id : ℕ
  attendance_id : Option ℕ
  role : String
  check_in_time : ℤ
  check_out_time : Option ℤ
  status : SessionStatus
  session_date : ℤ
  auto_stopped : Bool
deriving DecidableEq, Repr

/-- A row of `unified_live_locations` (one row per user, upsert target). -/
structure LiveLoc where
  user_id : ℕ
  session_id : ℕ
  latitude : ℚ
  longitude : ℚ
  accuracy : ℚ
  is_active : Bool
  last_updated : ℤ
deriving DecidableEq, Repr

/-- A row of `visit_logs`. -/
structure Visit where
  session_id : ℕ
  user_id : ℕ
  sequence_no : ℕ
  customer_name : String
  notes : String
  latitude : ℚ
  longitude : ℚ
  accuracy : ℚ
  address : String
  visit_type : String
  start_time : ℤ
  end_time : Option ℤ
  distance_from_prev_km : Option ℚ
deriving DecidableEq, Repr

/-- A row of `route_summaries`. -/
structure RouteRec where
  session_id : ℕ
  user_id : ℕ
  total_distance_km : ℚ
  total_visits : ℕ
  start_time : ℤ
  end_time : Option ℤ
  polyline : List (ℚ × ℚ)
deriving DecidableEq, Repr

/-- The database state touched by the tracking subsystem.  `nextSessionId`
models the autoincrement primary key of `tracking_sessions`. -/
structure Store where
  users : List UserRec
  sessions : List TSession
  liveLocations : List LiveLoc
  visits : List Visit
  routes : List RouteRec
  nextSessionId : ℕ
deriving DecidableEq, Repr

/-! Constants from `services/unified_tracking.py`. -/

def MAX_GPS_UPDATES_PER_MINUTE : ℕ := 6

def MAX_VISITS_PER_HOUR : ℕ := 10

def VALID_TRACKING_ROLES : List String := ["SALESMAN", "SERVICE_ENGINEER"]

def ADMIN_ROLES : List String := ["ADMIN", "RECEPTION", "MANAGER"]

/-! Geo utilities. -/

/-- Degrees to radians, `math.radians`. -/
noncomputable def radians (x : ℝ) : ℝ := x * Real.pi / 180

/-- Two-argument arctangent, `math.atan2 y x`.  Only the `0 < x` branch is
exercised by `haversine_distance` (its second argument is a positive square
root there). -/
noncomputable def atan2 (y x : ℝ) : ℝ :=
  if 0 < x then Real.arctan (y / x)
  else if x < 0 ∧ 0 ≤ y then Real.arctan (y / x) + Real.pi
  else if x < 0 ∧ y < 0 then Real.arctan (y / x) - Real.pi
  else if x = 0 ∧ 0 < y then Real.pi / 2
  else if x = 0 ∧ y < 0 then -(Real.pi / 2)
  else 0

/-- `haversine_distance`: distance between two GPS points in kilometers,
great-circle formula with Earth radius 6371 km. -/
noncomputable def haversine_distance (lat1 lon1 lat2 lon2 : ℝ) : ℝ :=
  let R : ℝ := 6371
  let lat1_r := radians lat1
  let lat2_r := radians lat2
  let dlat := radians (lat2 - lat1)
  let dlon := radians (lon2 - lon1)
  let a := Real.sin (dlat / 2) ^ 2 +
    Real.cos lat1_r * Real.cos lat2_r * Real.sin (dlon / 2) ^ 2
  let c := 2 * atan2 (Real.sqrt a) (Real.sqrt (1 - a))
  R * c

/-- `validate_coordinates`: reject obviously invalid GPS coordinates. -/
def validate_coordinates (lat lon : ℚ) : Bool :=
  if lat = 0 ∧ lon = 0 then false
  else if ¬(-90 ≤ lat ∧ lat ≤ 90) then false
  else if ¬(-180 ≤ lon ∧ lon ≤ 180) then false
  else true

/-- Python `round(q, 2)` on a value that is already rational. -/
def round2 (q : ℚ) : ℚ := (round (100 * q) : ℤ) / 100

/-- Python `round(x, 2)` applied to the (real-valued) haversine distance;
the result is an exact multiple of 1/100, hence rational. -/
noncomputable def round2R (x : ℝ) : ℚ := (round (100 * x) : ℤ) / 100

/-- Stand-in for the f-string `f"{latitude:.6f}, {longitude:.6f}"` used as the
address fallback; no claim depends on the exact text. -/
def coord_text (lat lon : ℚ) : String := toString lat ++ ", " ++ toString lon

/-! Live-location store. -/

/-- `_upsert_live_location`: update the first row of `unified_live_locations`
with this `user_id` in place, or insert a new row if none exists. -/
def _upsert_live_location (locs : List LiveLoc) (user_id session_id : ℕ)
    (lat lon accuracy : ℚ) (is_active : Bool) (now : ℤ) : List LiveLoc :=
  match locs with
  | [] => [{ user_id := user_id, session_id := session_id, latitude := lat,
             longitude := lon, accuracy := accuracy, is_active := is_active,
             last_updated := now }]
  | l :: rest =>
    if l.user_id = user_id then
      { l with session_id := session_id, latitude := lat, longitude := lon,
               accuracy := accuracy, is_active := is_active,
               last_updated := now } :: rest
    else
      l :: _upsert_live_location rest user_id session_id lat lon accuracy is_active now

/-- `update_live_location`: validate, then upsert with `is_active = True`.
The coordinate check runs before any store access, so an
`invalidCoordinates` failure produces no mutation. -/
def update_live_location (st : Store) (user_id session_id : ℕ)
    (latitude longitude accuracy : ℚ) (now : ℤ) : Except TrackErr Store :=
  if validate_coordinates latitude longitude = false then
    .error .invalidCoordinates
  else
    .ok { st with liveLocations :=
            (_upsert_live_location st.liveLocations user_id session_id
              latitude longitude accuracy true now) }

/-! Session store. -/

/-- `get_user_role_str`: normalize the user role to an uppercase string.
Role values reaching this model are the canonical uppercase enum `.value`
strings (`"SALESMAN"`, `"ADMIN"`, ...), so the `.upper()` normalization is
the identity here; `String.toUpper` itself is not kernel-reducible, so it
is not used. -/
def get_user_role_str (user : UserRec) : String := user.role

/-- `create_tracking_session`: one ACTIVE session per user per day.
Returns the existing session when one is ACTIVE today, fails when today's
session was already ENDED, otherwise inserts a fresh ACTIVE session and
initializes an inactive live-location row at (0,0). -/
def create_tracking_session (st : Store) (user : UserRec)
    (attendance_id : Option ℕ) (today now : ℤ) : Except TrackErr (Store × TSession) :=
  match st.sessions.find? (fun s => decide (s.user_id = user.id ∧ s.session_date = today)) with
  | some existing =>
    if existing.status = SessionStatus.active then .ok (st, existing)
    else .error .sessionAlreadyEnded
  | none =>
    let session : TSession :=
      { id := st.nextSessionId, user_id := user.id, attendance_id := attendance_id,
        role := get_user_role_str user, check_in_time := now, check_out_time := none,
        status := .active, session_date := today, auto_stopped := false }
    let st1 : Store :=
      { st with sessions := st.sessions ++ [session],
                nextSessionId := st.nextSessionId + 1 }
    let st2 : Store :=
      { st1 with liveLocations :=
          _upsert_live_location st1.liveLocations user.id session.id 0 0 0 false now }
    .ok (st2, session)

/-- `get_active_session`: the ACTIVE session of this user for today, if any. -/
def get_active_session (st : Store) (user_id : ℕ) (today : ℤ) : Option TSession :=
  st.sessions.find? (fun s =>
    decide (s.user_id = user_id ∧ s.session_date = today ∧ s.status = SessionStatus.active))

/-! Visit sequencer. -/

/-- `create_visit`: validate coordinates, derive the next sequence number as
`COALESCE(MAX(sequence_no), 0) + 1` over this session's visits (the source
serializes this read/insert pair by locking the session row with
`SELECT ... FOR UPDATE`; the embedding is sequential, so the lock has no
counterpart), compute the distance from the previous visit (by sequence
number) with the great-circle formula, and insert the new row. -/
noncomputable def create_visit (st : Store) (session : TSession) (user_id : ℕ)
    (latitude longitude : ℚ) (customer_name notes : String) (accuracy : ℚ)
    (visit_type address : String) (now : ℤ) : Except TrackErr (Store × Visit) :=
  if validate_coordinates latitude longitude = false then
    .error .invalidCoordinates
  else
    let customer_name := customer_name.trim.take 255
    let notes := notes.trim.take 2000
    let address := address.trim.take 500
    let next_seq : ℕ :=
      ((st.visits.filter (fun v => decide (v.session_id = session.id))).map
        (fun v => v.sequence_no)).foldl max 0 + 1
    let distance_km : ℝ :=
      if 1 < next_seq then
        match st.visits.find? (fun v =>
            decide (v.session_id = session.id ∧ v.sequence_no = next_seq - 1)) with
        | some prev =>
          haversine_distance (prev.latitude : ℝ) (prev.longitude : ℝ)
            (latitude : ℝ) (longitude : ℝ)
        | none => 0
      else 0
    let visit : Visit :=
      { session_id := session.id, user_id := user_id, sequence_no := next_seq,
        customer_name := customer_name, notes := notes,
        latitude := latitude, longitude := longitude, accuracy := accuracy,
        address := if address = "" then coord_text latitude longitude else address,
        visit_type := visit_type, start_time := now, end_time := none,
        distance_from_prev_km := some (round2R distance_km) }
    .ok ({ st with visits := st.visits ++ [visit] }, visit)

/-! Route summary generator. -/

/-- Replace the first route row with this `session_id` (the upsert branch of
`_generate_route_summary`). -/
def _replace_route (routes : List RouteRec) (r : RouteRec) : List RouteRec :=
  match routes with
  | [] => [r]
  | x :: rest =>
    if x.session_id = r.session_id then r :: rest else x :: _replace_route rest r

/-- `_generate_route_summary`: read this session's visits ordered by sequence
number, sum their stored incremental distances, build the polyline from the
visit coordinates, take start/end time from the first/last visit (falling
back to the session's own check-in/check-out times when there are no
visits), and upsert the `route_summaries` row. -/
def _generate_route_summary (st : Store) (session : TSession) :
    Store × RouteRec :=
  let visits :=
    (st.visits.filter (fun v => decide (v.session_id = session.id))).insertionSort
      (fun a b => a.sequence_no ≤ b.sequence_no)
  let total_distance := (visits.map (fun v => v.distance_from_prev_km.getD 0)).sum
  let polyline := visits.map (fun v => (v.latitude, v.longitude))
  let start_time :=
    match visits.head? with
    | some v => v.start_time
    | none => session.check_in_time
  let end_time :=
    match visits.getLast? with
    | some v => some (v.end_time.getD v.start_time)
    | none => session.check_out_time
  match st.routes.find? (fun r => decide (r.session_id = session.id)) with
  | some existing_route =>
    let route : RouteRec :=
      { session_id := session.id, user_id := existing_route.user_id,
        total_distance_km := round2 total_distance, total_visits := visits.length,
        start_time := start_time, end_time := end_time, polyline := polyline }
    ({ st with routes := _replace_route st.routes route }, route)
  | none =>
    let route : RouteRec :=
      { session_id := session.id, user_id := session.user_id,
        total_distance_km := round2 total_distance, total_visits := visits.length,
        start_time := start_time, end_time := end_time, polyline := polyline }
    ({ st with routes := st.routes ++ [route] }, route)

/-- `end_tracking_session`: mark the session ENDED, stamp the check-out time,
deactivate the user's live location, and generate the route summary.  Note
that the source performs no status precondition check. -/
def end_tracking_session (st : Store) (session : TSession) (auto_stopped : Bool)
    (now : ℤ) : Store × RouteRec :=
  let stamped : TSession :=
    { session with status := .ended, check_out_time := some now,
                   auto_stopped := auto_stopped }
  let st1 : Store :=
    { st with sessions := st.sessions.map (fun s =>
        if s.id = session.id then
          { s with status := .ended, check_out_time := some now,
                   auto_stopped := auto_stopped }
        else s) }
  let st2 : Store :=
    { st1 with liveLocations := st1.liveLocations.map (fun l =>
        if l.user_id = session.user_id then
          { l with is_active := false, last_updated := now }
        else l) }
  _generate_route_summary st2 stamped

/-- `close_stale_sessions`: end every ACTIVE session dated strictly before
today with `auto_stopped = true`; returns the updated store and the count of
sessions closed. -/
def close_stale_sessions (st : Store) (today now : ℤ) : Store × ℕ :=
  let stale_sessions := st.sessions.filter (fun s =>
    decide (s.status = SessionStatus.active ∧ s.session_date < today))
  stale_sessions.foldl
    (fun acc s => ((end_tracking_session acc.1 s true now).1, acc.2 + 1)) (st, 0)

/-- `auto_stop_all_sessions`: end every ACTIVE session regardless of date
(the 6:30 PM daily cutoff). -/
def auto_stop_all_sessions (st : Store) (now : ℤ) : Store × ℕ :=
  let active_sessions := st.sessions.filter (fun s =>
    decide (s.status = SessionStatus.active))
  active_sessions.foldl
    (fun acc s => ((end_tracking_session acc.1 s true now).1, acc.2 + 1)) (st, 0)

/-! Live map read path. -/

/-- One row of the admin live-map response (live location joined with the
identity attributes selected by `get_all_live_locations`). -/
structure LocRow where
  user_id : ℕ
  full_name : String
  username : String
  photograph : Option String
  phone : String
  email : String
  latitude : ℚ
  longitude : ℚ
  accuracy : ℚ
  last_updated : ℤ
  is_active : Bool
  session_id : ℕ
deriving DecidableEq, Repr

/-- `get_all_live_locations`: `SELECT ... FROM unified_live_locations ll JOIN
users u ON ll.user_id = u.id ... WHERE ll.is_active = true ORDER BY
ll.last_updated DESC`.  The LEFT JOIN onto `tracking_sessions` only adds
display columns and is not modelled. -/
def get_all_live_locations (st : Store) : List LocRow :=
  ((st.liveLocations.filter (fun l => l.is_active)).filterMap (fun l =>
    (st.users.find? (fun u => decide (u.id = l.user_id))).map (fun u =>
      { user_id := l.user_id, full_name := u.full_name, username := u.username,
        photograph := u.photograph, phone := u.phone, email := u.email,
        latitude := l.latitude, longitude := l.longitude, accuracy := l.accuracy,
        last_updated := l.last_updated, is_active := l.is_active,
        session_id := l.session_id }))).insertionSort
    (fun a b => b.last_updated ≤ a.last_updated)

/-- Python calling convention: a call with `npos` positional arguments and the
given keyword-argument names binds against a signature (an ordered list of
parameter names) only if every keyword names a parameter that is not already
bound positionally. -/
def python_call_binds (params : List String) (npos : ℕ) (kwargs : List String) : Bool :=
  decide (npos ≤ params.length) &&
    kwargs.all (fun k => (params.drop npos).contains k)

/-- Parameter list of `get_all_live_locations(db)` in
`services/unified_tracking.py`. -/
def get_all_live_locations_params : List String := ["db"]

/-- Keyword arguments that the router's `admin_live_locations` handler (and
every compat endpoint) passes to `get_all_live_locations(db, role_filter=role)`. -/
def admin_live_locations_kwargs : List String := ["role_filter"]

/-! Router layer: rate limiter, guards, endpoints. -/

/-- `_check_gps_rate`: max 6 GPS updates per rolling 60-second window per
user.  `times` is the `_gps_timestamps[user_id]` list; on over-limit the
source raises before writing the filtered list back, so the stored state is
unchanged. -/
def _check_gps_rate (times : List ℚ) (now : ℚ) : Except TrackErr (List ℚ) :=
  let fresh := times.filter (fun t => decide (now - t < 60))
  if MAX_GPS_UPDATES_PER_MINUTE ≤ fresh.length then .error .rateLimited
  else .ok (fresh ++ [now])

/-- `_check_visit_rate`: max 10 visit creations per rolling 3600-second window. -/
def _check_visit_rate (times : List ℚ) (now : ℚ) : Except TrackErr (List ℚ) :=
  let fresh := times.filter (fun t => decide (now - t < 3600))
  if MAX_VISITS_PER_HOUR ≤ fresh.length then .error .rateLimited
  else .ok (fresh ++ [now])

def TRACKING_CUTOFF_HOUR : ℕ := 23

/-- `_check_tracking_hours`: block requests from 11 PM IST on. -/
def _check_tracking_hours (hour : ℕ) : Except TrackErr Unit :=
  if TRACKING_CUTOFF_HOUR ≤ hour then .error .forbidden else .ok ()

/-- `_require_field_role`: only SALESMAN / SERVICE_ENGINEER may track. -/
def _require_field_role (user : UserRec) : Except TrackErr Unit :=
  if VALID_TRACKING_ROLES.contains (get_user_role_str user) then .ok ()
  else .error .forbidden

/-- The `POST /gps/update` handler: pydantic range validation on the body,
then field-role guard, tracking-hours guard, rate limiter, active-session
guard, and finally `update_live_location`.  The first component of the
result is the user's `_gps_timestamps` entry after the call: it is left
unchanged whenever the request fails at or before the rate limiter. -/
def gps_update (rateSt : List ℚ) (st : Store) (user : UserRec) (hour : ℕ)
    (today : ℤ) (nowE : ℚ) (now : ℤ) (latitude longitude accuracy : ℚ) :
    List ℚ × Except TrackErr Store :=
  if ¬(-90 ≤ latitude ∧ latitude ≤ 90 ∧ -180 ≤ longitude ∧ longitude ≤ 180) then
    (rateSt, .error .invalidCoordinates)
  else
    match _require_field_role user with
    | .error e => (rateSt, .error e)
    | .ok _ =>
      match _check_tracking_hours hour with
      | .error e => (rateSt, .error e)
      | .ok _ =>
        match _check_gps_rate rateSt nowE with
        | .error e => (rateSt, .error e)
        | .ok newRate =>
          match get_active_session st user.id today with
          | none => (newRate, .error .noActiveSession)
          | some session =>
            match update_live_location st user.id session.id
                latitude longitude accuracy now with
            | .error e => (newRate, .error e)
            | .ok st2 => (newRate, .ok st2)

/-- The `POST /session/stop` handler: field-role guard, active-session guard
(`_require_active_session`, HTTP 409 when absent), then
`end_tracking_session` with `auto_stopped = False`. -/
def stop_session (st : Store) (user : UserRec) (today now : ℤ) :
    Except TrackErr (Store × RouteRec) :=
  match _require_field_role user with
  | .error e => .error e
  | .ok _ =>
    match get_active_session st user.id today with
    | none => .error .noActiveSession
    | some session => .ok (end_tracking_session st session false now)

/-! Basic lemmas. -/

/-- Characterization of the coordinate validity check. -/
lemma validate_coordinates_eq_false_iff (lat lon : ℚ) :
    validate_coordinates lat lon = false ↔
      ((lat = 0 ∧ lon = 0) ∨ lat < -90 ∨ 90 < lat ∨ lon < -180 ∨ 180 < lon) := by
  unfold validate_coordinates
  split_ifs with h1 h2 h3
  · simpa using Or.inl h1
  · simp only [false_iff]
    rintro (h | h | h | h | h)
    · exact h1 h
    · exact absurd h2.1 (not_le.mpr h)
    · exact absurd h2.2 (not_le.mpr h)
    · exact absurd h3.1 (not_le.mpr h)
    · exact absurd h3.2 (not_le.mpr h)
  · rcases not_and_or.mp h3 with h | h
    · simpa using Or.inr (Or.inr (Or.inr (Or.inl (not_le.mp h))))
    · simpa using Or.inr (Or.inr (Or.inr (Or.inr (not_le.mp h))))
  · rcases not_and_or.mp h2 with h | h
    · simpa using Or.inr (Or.inl (not_le.mp h))
    · simpa using Or.inr (Or.inr (Or.inl (not_le.mp h)))

/-- C4: a position update fails with `InvalidCoordinates` exactly when the
pair is (0,0) or latitude is outside [-90, 90] or longitude is outside
[-180, 180]; in particular (0,0) is rejected, and on that error path no new
store is produced (the validation runs before the upsert). -/
theorem update_live_location_invalid_iff (st : Store) (user_id session_id : ℕ)
    (lat lon accuracy : ℚ) (now : ℤ) :
    (update_live_location st user_id session_id lat lon accuracy now =
        .error .invalidCoordinates ↔
      ((lat = 0 ∧ lon = 0) ∨ lat < -90 ∨ 90 < lat ∨ lon < -180 ∨ 180 < lon)) ∧
    update_live_location st user_id session_id 0 0 accuracy now =
      .error .invalidCoordinates := by
  constructor
  · rw [← validate_coordinates_eq_false_iff]
    unfold update_live_location
    constructor
    · intro h
      by_contra hval
      rw [Bool.not_eq_false] at hval
      simp [hval] at h
    · intro h
      simp [h]
  · unfold update_live_location
    simp [validate_coordinates]

/-- C2: behavior of `create_tracking_session` on today's session row:
an existing ACTIVE session is returned unchanged, an ENDED one fails with
`SessionAlreadyEnded`, absence inserts a fresh ACTIVE session; consequently
two consecutive successful start calls return the same session. -/
theorem create_tracking_session_spec (st : Store) (user : UserRec)
    (attendance_id : Option ℕ) (today now now2 : ℤ) :
    (∀ s, st.sessions.find?
        (fun t => decide (t.user_id = user.id ∧ t.session_date = today)) = some s →
      (s.status = SessionStatus.active →
        create_tracking_session st user attendance_id today now = .ok (st, s)) ∧
      (s.status = SessionStatus.ended →
        create_tracking_session st user attendance_id today now =
          .error .sessionAlreadyEnded)) ∧
    (st.sessions.find?
        (fun t => decide (t.user_id = user.id ∧ t.session_date = today)) = none →
      ∃ st2 s, create_tracking_session st user attendance_id today now = .ok (st2, s) ∧
        s.status = SessionStatus.active ∧ s.user_id = user.id ∧
        s.session_date = today ∧ st2.sessions = st.sessions ++ [s]) ∧
    (∀ st2 s, create_tracking_session st user attendance_id today now = .ok (st2, s) →
      create_tracking_session st2 user attendance_id today now2 = .ok (st2, s)) := by
  refine ⟨?_, ?_, ?_⟩
  · intro s hfind
    constructor
    · intro hact
      unfold create_tracking_session
      rw [hfind]
      simp [hact]
    · intro hend
      unfold create_tracking_session
      rw [hfind]
      simp [hend]
  · intro hfind
    unfold create_tracking_session
    rw [hfind]
    exact ⟨_, _, rfl, rfl, rfl, rfl, rfl⟩
  · intro st2 s hok
    unfold create_tracking_session at hok
    cases hfind : st.sessions.find?
        (fun t => decide (t.user_id = user.id ∧ t.session_date = today)) with
    | some existing =>
      rw [hfind] at hok
      by_cases hact : existing.status = SessionStatus.active
      · have hpair : st = st2 ∧ existing = s := by simpa [hact] using hok
        obtain ⟨h1, h2⟩ := hpair
        subst h1; subst h2
        unfold create_tracking_session
        rw [hfind]
        simp [hact]
      · simp [hact] at hok
    | none =>
      rw [hfind] at hok
      injection hok with h
      injection h with hst hs
      subst hst; subst hs
      have hfind2 : st.sessions.find?
          (fun t => decide (t.user_id = user.id) && decide (t.session_date = today)) =
            none := by
        simpa using hfind
      simp [create_tracking_session, List.find?_append, hfind2]

/-! Concrete fixtures for witnesses and counterexamples. -/

def wUser : UserRec :=
  { id := 1, full_name := "W", username := "w", photograph := none,
    phone := "", email := "", role := "SALESMAN" }

def wStore0 : Store :=
  { users := [wUser], sessions := [], liveLocations := [], visits := [],
    routes := [], nextSessionId := 1 }

def wSess : TSession :=
  { id := 1, user_id := 1, attendance_id := none, role := "SALESMAN",
    check_in_time := 10, check_out_time := none, status := .active,
    session_date := 0, auto_stopped := false }

def wLoc1 : LiveLoc :=
  { user_id := 1, session_id := 1, latitude := 0, longitude := 0,
    accuracy := 0, is_active := false, last_updated := 10 }

def wStore1 : Store :=
  { users := [wUser], sessions := [wSess], liveLocations := [wLoc1],
    visits := [], routes := [], nextSessionId := 2 }

def wSessEnded : TSession :=
  { id := 1, user_id := 1, attendance_id := none, role := "SALESMAN",
    check_in_time := 10, check_out_time := some 200, status := .ended,
    session_date := 0, auto_stopped := false }

def wLocEnded : LiveLoc :=
  { user_id := 1, session_id := 1, latitude := 13, longitude := 80,
    accuracy := 5, is_active := false, last_updated := 150 }

def wStoreEnded : Store :=
  { users := [wUser], sessions := [wSessEnded], liveLocations := [wLocEnded],
    visits := [], routes := [], nextSessionId := 2 }

/-- Witness for `create_tracking_session_spec` at concrete stores: a second
start call after a successful one returns the same session; a start call over
an ENDED session errors; a start call on a fresh day inserts. -/
theorem create_tracking_session_spec_witness :
    create_tracking_session wStore1 wUser none 0 20 = .ok (wStore1, wSess) ∧
    create_tracking_session wStoreEnded wUser none 0 20 =
      .error .sessionAlreadyEnded ∧
    create_tracking_session wStore1 wUser none 0 99 = .ok (wStore1, wSess) :=
  ⟨((create_tracking_session_spec wStore1 wUser none 0 20 20).1 wSess
      (by decide)).1 (by decide),
   ((create_tracking_session_spec wStoreEnded wUser none 0 20 20).1 wSessEnded
      (by decide)).2 (by decide),
   (create_tracking_session_spec wStore0 wUser none 0 10 99).2.2 wStore1 wSess
      (by decide)⟩

/-! C5.  The claim says ending an already-ENDED session fails with
`InvalidState` and the session is not re-processed.  The service function
performs no status check at all, so it silently re-stamps the session; only
the router-level guard (`_require_active_session`) protects the API path. -/

/-- C5 counterexample: `end_tracking_session` invoked on a session whose
status is already ENDED (check-out at 200) does not fail — it re-stamps the
check-out time to the new instant and overwrites `auto_stopped`, so the
claim's `InvalidState` failure and "never re-processed" guarantee are false
at this input. -/
theorem end_tracking_session_no_invalid_state :
    wSessEnded.status = SessionStatus.ended ∧
    wSessEnded.check_out_time = some 200 ∧
    (end_tracking_session wStoreEnded wSessEnded true 555).1.sessions =
      [{ id := 1, user_id := 1, attendance_id := none, role := "SALESMAN",
         check_in_time := 10, check_out_time := some 555, status := .ended,
         session_date := 0, auto_stopped := true }] := by
  refine ⟨rfl, rfl, ?_⟩
  decide

/-- C5 (amended): the service-level `end_tracking_session` has no status
precondition, but the `POST /session/stop` path guards with an ACTIVE-only
lookup, so stopping when every session of this user for today is already
ENDED fails with `NoActiveSession` and no session is re-processed. -/
theorem stop_session_ended_is_no_active_session (st : Store) (user : UserRec)
    (today now : ℤ)
    (hrole : VALID_TRACKING_ROLES.contains (get_user_role_str user) = true)
    (hall : ∀ s ∈ st.sessions, s.user_id = user.id → s.session_date = today →
      s.status = SessionStatus.ended) :
    stop_session st user today now = .error .noActiveSession := by
  have hfind : get_active_session st user.id today = none := by
    unfold get_active_session
    rw [List.find?_eq_none]
    intro s hs
    simp only [decide_eq_true_eq, not_and]
    intro hu hd hstat
    have := hall s hs hu hd
    rw [this] at hstat
    exact absurd hstat (by simp)
  unfold stop_session _require_field_role
  rw [if_pos hrole, hfind]

/-- Witness for `stop_session_ended_is_no_active_session` at a concrete
store whose only session for (user 1, day 0) is ENDED. -/
theorem stop_session_ended_witness :
    stop_session wStoreEnded wUser 0 300 = .error .noActiveSession :=
  stop_session_ended_is_no_active_session wStoreEnded wUser 0 300 (by decide)
    (by
      intro s hs hu hd
      have hsv : s = wSessEnded := by simpa [wStoreEnded] using hs
      rw [hsv]
      rfl)

/-! Store-shape helper lemmas. -/

/-- Generating a route summary never touches the sessions table. -/
lemma gen_route_sessions (st : Store) (s : TSession) :
    (_generate_route_summary st s).1.sessions = st.sessions := by
  unfold _generate_route_summary
  split <;> rfl

/-- Generating a route summary never touches the live-locations table. -/
lemma gen_route_liveLocations (st : Store) (s : TSession) :
    (_generate_route_summary st s).1.liveLocations = st.liveLocations := by
  unfold _generate_route_summary
  split <;> rfl

/-- Generating a route summary never touches the visits table. -/
lemma gen_route_visits (st : Store) (s : TSession) :
    (_generate_route_summary st s).1.visits = st.visits := by
  unfold _generate_route_summary
  split <;> rfl

/-- Upserting over an existing row for this user rewrites that row in place. -/
lemma find?_upsert_live_location (locs : List LiveLoc) (uid sid : ℕ)
    (lat lon acc : ℚ) (act : Bool) (now : ℤ) (L : LiveLoc)
    (h : locs.find? (fun l => decide (l.user_id = uid)) = some L) :
    (_upsert_live_location locs uid sid lat lon acc act now).find?
        (fun l => decide (l.user_id = uid)) =
      some { L with session_id := sid, latitude := lat, longitude := lon,
                    accuracy := acc, is_active := act, last_updated := now } := by
  induction locs with
  | nil => simp at h
  | cons l rest ih =>
    by_cases hl : l.user_id = uid
    · have hL : l = L := by
        rw [List.find?_cons_of_pos _ (by simpa using hl)] at h
        injection h
      unfold _upsert_live_location
      rw [if_pos hl, List.find?_cons_of_pos _ (by simpa using hl), hL]
    · unfold _upsert_live_location
      rw [if_neg hl, List.find?_cons_of_neg _ (by simpa using hl)]
      apply ih
      rwa [List.find?_cons_of_neg _ (by simpa using hl)] at h

/-- Deactivation (`UPDATE ... SET is_active = false`) flips the flag and the
timestamp of this user's row and nothing else. -/
lemma find?_map_deactivate (locs : List LiveLoc) (uid : ℕ) (now : ℤ) (L : LiveLoc)
    (h : locs.find? (fun l => decide (l.user_id = uid)) = some L) :
    (locs.map (fun l => if l.user_id = uid then
        { l with is_active := false, last_updated := now } else l)).find?
        (fun l => decide (l.user_id = uid)) =
      some { L with is_active := false, last_updated := now } := by
  induction locs with
  | nil => simp at h
  | cons l rest ih =>
    by_cases hl : l.user_id = uid
    · have hL : l = L := by
        rw [List.find?_cons_of_pos _ (by simpa using hl)] at h
        injection h
      simp only [List.map_cons]
      rw [if_pos hl, List.find?_cons_of_pos _ (by simpa using hl), hL]
    · simp only [List.map_cons]
      rw [if_neg hl, List.find?_cons_of_neg _ (by simpa using hl)]
      apply ih
      rwa [List.find?_cons_of_neg _ (by simpa using hl)] at h

/-- C10: starting a day's session for a user who already has a LiveLocation
row overwrites that row in place with latitude 0, longitude 0, accuracy 0 and
`is_active = false`, discarding the previously stored position; by contrast,
ending a session only flips `is_active` (and the timestamp) and leaves the
stored coordinates untouched. -/
theorem create_session_resets_live_location (st : Store) (user : UserRec)
    (attendance_id : Option ℕ) (today now now2 : ℤ) (auto : Bool)
    (L : LiveLoc) (s : TSession) :
    (st.liveLocations.find? (fun l => decide (l.user_id = user.id)) = some L →
      st.sessions.find?
        (fun t => decide (t.user_id = user.id ∧ t.session_date = today)) = none →
      ∃ st2 snew, create_tracking_session st user attendance_id today now =
          .ok (st2, snew) ∧
        st2.liveLocations.find? (fun l => decide (l.user_id = user.id)) =
          some { L with session_id := snew.id, latitude := 0, longitude := 0,
                        accuracy := 0, is_active := false, last_updated := now }) ∧
    (st.liveLocations.find? (fun l => decide (l.user_id = user.id)) = some L →
      s.user_id = user.id →
      (end_tracking_session st s auto now2).1.liveLocations.find?
          (fun l => decide (l.user_id = user.id)) =
        some { L with is_active := false, last_updated := now2 }) := by
  constructor
  · intro hloc hsess
    unfold create_tracking_session
    rw [hsess]
    refine ⟨_, _, rfl, ?_⟩
    exact find?_upsert_live_location st.liveLocations user.id st.nextSessionId
      0 0 0 false now L hloc
  · intro hloc huid
    unfold end_tracking_session
    rw [gen_route_liveLocations]
    rw [← huid] at hloc ⊢
    exact find?_map_deactivate st.liveLocations s.user_id now2 L hloc

/-- Witness for `create_session_resets_live_location` at concrete stores. -/
theorem create_session_resets_live_location_witness :
    (∃ st2 snew, create_tracking_session
        { users := [wUser], sessions := [], liveLocations := [wLocEnded],
          visits := [], routes := [], nextSessionId := 5 } wUser none 0 77 =
          .ok (st2, snew) ∧
      st2.liveLocations.find? (fun l => decide (l.user_id = wUser.id)) =
        some { wLocEnded with session_id := snew.id, latitude := 0,
                              longitude := 0, accuracy := 0, is_active := false,
                              last_updated := 77 }) ∧
    (end_tracking_session wStore1 wSess false 88).1.liveLocations.find?
        (fun l => decide (l.user_id = wUser.id)) =
      some { wLoc1 with is_active := false, last_updated := 88 } :=
  ⟨(create_session_resets_live_location
      { users := [wUser], sessions := [], liveLocations := [wLocEnded],
        visits := [], routes := [], nextSessionId := 5 } wUser none 0 77 0 false
      wLocEnded wSess).1 (by decide) (by decide),
   (create_session_resets_live_location wStore1 wUser none 0 77 88 false
      wLoc1 wSess).2 (by decide) rfl⟩

/-! C6: stale-session recovery. -/

/-- Ending a session stamps exactly the rows of `tracking_sessions` carrying
its id. -/
lemma end_sessions_eq (st : Store) (s : TSession) (auto : Bool) (now : ℤ) :
    (end_tracking_session st s auto now).1.sessions =
      st.sessions.map (fun x =>
        if x.id = s.id then
          { x with status := SessionStatus.ended, check_out_time := some now,
                   auto_stopped := auto }
        else x) := by
  simp only [end_tracking_session]
  rw [gen_route_sessions]

/-- The scheduler's fold counts one closed session per processed row. -/
lemma close_fold_count (now : ℤ) (L : List TSession) :
    ∀ (st : Store) (c : ℕ),
      (L.foldl (fun acc s =>
        ((end_tracking_session acc.1 s true now).1, acc.2 + 1)) (st, c)).2 =
        c + L.length := by
  induction L with
  | nil => intro st c; simp
  | cons s L ih =>
    intro st c
    rw [List.foldl_cons, ih]
    simp
    omega

/-- The scheduler's fold stamps exactly the sessions whose id occurs in the
processed list. -/
lemma close_fold_sessions (now : ℤ) (L : List TSession) :
    ∀ (st : Store) (c : ℕ),
      ((L.foldl (fun acc s =>
          ((end_tracking_session acc.1 s true now).1, acc.2 + 1)) (st, c)).1).sessions =
        st.sessions.map (fun x =>
          if x.id ∈ L.map TSession.id then
            { x with status := SessionStatus.ended, check_out_time := some now,
                     auto_stopped := true }
          else x) := by
  induction L with
  | nil =>
    intro st c
    simp
  | cons s L ih =>
    intro st c
    rw [List.foldl_cons, ih, end_sessions_eq, List.map_map]
    apply List.map_congr_left
    intro x hx
    simp only [Function.comp_apply, List.map_cons, List.mem_cons]
    by_cases hxs : x.id = s.id
    · rw [if_pos hxs]
      by_cases hmem : x.id ∈ L.map TSession.id
      · rw [if_pos hmem, if_pos (Or.inl hxs)]
      · rw [if_neg hmem, if_pos (Or.inl hxs)]
    · rw [if_neg hxs]
      by_cases hmem : x.id ∈ L.map TSession.id
      · rw [if_pos hmem, if_pos (Or.inr hmem)]
      · rw [if_neg hmem, if_neg (not_or.mpr ⟨hxs, hmem⟩)]

/-- When nothing is stale the scheduler is the identity and closes zero
sessions. -/
lemma close_stale_of_no_stale (st : Store) (today now : ℤ)
    (h : st.sessions.filter (fun s =>
      decide (s.status = SessionStatus.active ∧ s.session_date < today)) = []) :
    close_stale_sessions st today now = (st, 0) := by
  simp only [close_stale_sessions]
  rw [h]
  rfl

/-- C6: one run of stale-session recovery ends (with `auto_stopped = true`)
exactly the ACTIVE sessions dated strictly before today, reports their
number, leaves no stale ACTIVE session behind, and a second consecutive run
changes nothing and closes zero sessions.  `hids` is the primary-key
uniqueness of `tracking_sessions.id`. -/
theorem close_stale_sessions_spec (st : Store) (today now : ℤ)
    (hids : (st.sessions.map TSession.id).Nodup) :
    ((close_stale_sessions st today now).1.sessions =
      st.sessions.map (fun x =>
        if x.status = SessionStatus.active ∧ x.session_date < today then
          { x with status := SessionStatus.ended, check_out_time := some now,
                   auto_stopped := true }
        else x)) ∧
    (close_stale_sessions st today now).2 =
      (st.sessions.filter (fun s =>
        decide (s.status = SessionStatus.active ∧ s.session_date < today))).length ∧
    (∀ s ∈ (close_stale_sessions st today now).1.sessions,
      ¬(s.status = SessionStatus.active ∧ s.session_date < today)) ∧
    close_stale_sessions (close_stale_sessions st today now).1 today now =
      ((close_stale_sessions st today now).1, 0) := by
  have h1 : (close_stale_sessions st today now).1.sessions =
      st.sessions.map (fun x =>
        if x.status = SessionStatus.active ∧ x.session_date < today then
          { x with status := SessionStatus.ended, check_out_time := some now,
                   auto_stopped := true }
        else x) := by
    simp only [close_stale_sessions]
    rw [close_fold_sessions]
    apply List.map_congr_left
    intro x hx
    by_cases hstale : x.status = SessionStatus.active ∧ x.session_date < today
    · rw [if_pos (List.mem_map_of_mem TSession.id
        (List.mem_filter.mpr ⟨hx, by simpa using hstale⟩)), if_pos hstale]
    · rw [if_neg ?_, if_neg hstale]
      intro hmem
      obtain ⟨y, hy, hyx⟩ := List.mem_map.mp hmem
      have hy2 := List.mem_filter.mp hy
      have hxy : y = x :=
        List.inj_on_of_nodup_map hids hy2.1 hx hyx
      rw [hxy] at hy2
      exact hstale (by simpa using hy2.2)
  have h3 : ∀ s ∈ (close_stale_sessions st today now).1.sessions,
      ¬(s.status = SessionStatus.active ∧ s.session_date < today) := by
    intro s hs
    rw [h1] at hs
    obtain ⟨x, hx, rfl⟩ := List.mem_map.mp hs
    by_cases hstale : x.status = SessionStatus.active ∧ x.session_date < today
    · rw [if_pos hstale]
      rintro ⟨hcontra, -⟩
      exact absurd hcontra (by simp)
    · rw [if_neg hstale]
      exact hstale
  refine ⟨h1, ?_, h3, ?_⟩
  · simp only [close_stale_sessions]
    rw [close_fold_count]
    omega
  · exact close_stale_of_no_stale _ _ _ (List.filter_eq_nil_iff.mpr (by
      intro a ha
      simpa using h3 a ha))

/-- Witness for `close_stale_sessions_spec`: a store holding one stale ACTIVE
session (day -1) and one ACTIVE session of today. -/
theorem close_stale_sessions_spec_witness :
    ((close_stale_sessions
        { users := [wUser],
          sessions := [{ wSess with id := 1, session_date := -1 },
                       { wSess with id := 2, session_date := 0 }],
          liveLocations := [wLoc1], visits := [], routes := [],
          nextSessionId := 3 } 0 44).1.sessions =
      [{ wSess with id := 1, session_date := -1, status := SessionStatus.ended,
                    check_out_time := some 44, auto_stopped := true },
       { wSess with id := 2, session_date := 0 }]) ∧
    (close_stale_sessions
        { users := [wUser],
          sessions := [{ wSess with id := 1, session_date := -1 },
                       { wSess with id := 2, session_date := 0 }],
          liveLocations := [wLoc1], visits := [], routes := [],
          nextSessionId := 3 } 0 44).2 = 1 := by
  have h := close_stale_sessions_spec
    { users := [wUser],
      sessions := [{ wSess with id := 1, session_date := -1 },
                   { wSess with id := 2, session_date := 0 }],
      liveLocations := [wLoc1], visits := [], routes := [],
      nextSessionId := 3 } 0 44 (by decide)
  refine ⟨?_, ?_⟩
  · rw [h.1]
    decide
  · rw [h.2.1]
    decide

/-! C1: visit sequence numbers. -/

/-- One check-in request body (the arguments a caller passes to
`create_visit`). -/
structure VisitIn where
  latitude : ℚ
  longitude : ℚ
  customer_name : String
  notes : String
  accuracy : ℚ
  visit_type : String
  address : String
  now : ℤ

/-- Run a sequence of `create_visit` calls against one session, keeping the
store unchanged on each failed call. -/
noncomputable def run_create_visits (st : Store) (session : TSession)
    (user_id : ℕ) (inputs : List VisitIn) : Store :=
  inputs.foldl (fun acc i =>
    match create_visit acc session user_id i.latitude i.longitude
        i.customer_name i.notes i.accuracy i.visit_type i.address i.now with
    | .ok (st2, _) => st2
    | .error _ => acc) st

/-- Shape of a successful `create_visit`: it appends one row for this session
whose sequence number is the current per-session maximum plus one. -/
lemma create_visit_ok_shape (st : Store) (session : TSession) (user_id : ℕ)
    (latitude longitude : ℚ) (customer_name notes : String) (accuracy : ℚ)
    (visit_type address : String) (now : ℤ) (st2 : Store) (v : Visit)
    (h : create_visit st session user_id latitude longitude customer_name notes
      accuracy visit_type address now = .ok (st2, v)) :
    st2.visits = st.visits ++ [v] ∧ v.session_id = session.id ∧
      v.sequence_no =
        ((st.visits.filter (fun w => decide (w.session_id = session.id))).map
          (fun w => w.sequence_no)).foldl max 0 + 1 := by
  unfold create_visit at h
  split at h
  · exact absurd h (by simp)
  · injection h with h
    injection h with hst hv
    subst hst; subst hv
    exact ⟨rfl, rfl, rfl⟩

/-- The maximum over the sequence list `[1, ..., n]` is `n`. -/
lemma foldl_max_range' (n : ℕ) : (List.range' 1 n).foldl max 0 = n := by
  induction n with
  | zero => rfl
  | succ n ih =>
    rw [List.range'_concat, List.foldl_append, ih]
    simp
    omega

/-- C1: starting from a session with no visits, any sequence of
`create_visit` calls (failures leaving the store untouched) yields visit
rows whose sequence numbers are exactly `1, ..., N` in order, where `N` is
the number of rows. -/
theorem visit_sequence_numbers_gapless (st : Store) (session : TSession)
    (user_id : ℕ) (inputs : List VisitIn)
    (h0 : st.visits.filter (fun v => decide (v.session_id = session.id)) = []) :
    ((run_create_visits st session user_id inputs).visits.filter
        (fun v => decide (v.session_id = session.id))).map (fun v => v.sequence_no) =
      List.range' 1 ((run_create_visits st session user_id inputs).visits.filter
        (fun v => decide (v.session_id = session.id))).length := by
  suffices hmain : ∀ (st : Store),
      ((st.visits.filter (fun v => decide (v.session_id = session.id))).map
        (fun v => v.sequence_no) =
        List.range' 1 (st.visits.filter
          (fun v => decide (v.session_id = session.id))).length) →
      ((run_create_visits st session user_id inputs).visits.filter
          (fun v => decide (v.session_id = session.id))).map (fun v => v.sequence_no) =
        List.range' 1 ((run_create_visits st session user_id inputs).visits.filter
          (fun v => decide (v.session_id = session.id))).length by
    apply hmain
    rw [h0]
    rfl
  clear h0
  induction inputs with
  | nil => intro st h; exact h
  | cons i inputs ih =>
    intro st h
    cases hc : create_visit st session user_id i.latitude i.longitude
        i.customer_name i.notes i.accuracy i.visit_type i.address i.now with
    | error e =>
      have hstep : run_create_visits st session user_id (i :: inputs) =
          run_create_visits st session user_id inputs := by
        unfold run_create_visits
        rw [List.foldl_cons, hc]
      rw [hstep]
      exact ih st h
    | ok p =>
      obtain ⟨st2, v⟩ := p
      obtain ⟨hvis, hsid, hseq⟩ := create_visit_ok_shape st session user_id
        i.latitude i.longitude i.customer_name i.notes i.accuracy i.visit_type
        i.address i.now st2 v hc
      have hstep : run_create_visits st session user_id (i :: inputs) =
          run_create_visits st2 session user_id inputs := by
        unfold run_create_visits
        rw [List.foldl_cons, hc]
      rw [hstep]
      apply ih
      have hfilter : st2.visits.filter (fun w => decide (w.session_id = session.id)) =
          st.visits.filter (fun w => decide (w.session_id = session.id)) ++ [v] := by
        rw [hvis, List.filter_append]
        simp [hsid]
      rw [hfilter, List.map_append, List.length_append]
      simp only [List.map_cons, List.map_nil, List.length_cons, List.length_nil]
      rw [h, hseq, h, foldl_max_range', List.range'_concat]
      simp [Nat.add_comm]

/-- Witness for `visit_sequence_numbers_gapless` with an empty input list on
a fresh store (the fold over the inputs cannot be evaluated further in
closed form because stored distances are real-valued). -/
theorem visit_sequence_numbers_gapless_witness :
    ((run_create_visits wStore1 wSess 1 []).visits.filter
        (fun v => decide (v.session_id = wSess.id))).map (fun v => v.sequence_no) =
      List.range' 1 ((run_create_visits wStore1 wSess 1 []).visits.filter
        (fun v => decide (v.session_id = wSess.id))).length :=
  visit_sequence_numbers_gapless wStore1 wSess 1 [] (by decide)

/-! C3: route summary totals. -/

/-- A list of exact hundredths sums to an exact hundredth. -/
lemma sum_div100 (l : List ℚ) (h : ∀ q ∈ l, ∃ k : ℤ, q = (k : ℚ) / 100) :
    ∃ K : ℤ, l.sum = (K : ℚ) / 100 := by
  induction l with
  | nil => exact ⟨0, by simp⟩
  | cons a l ih =>
    obtain ⟨k, hk⟩ := h a (by simp)
    obtain ⟨K, hK⟩ := ih (fun q hq => h q (by simp [hq]))
    refine ⟨k + K, ?_⟩
    rw [List.sum_cons, hk, hK]
    push_cast
    ring

/-- Rounding to hundredths fixes exact hundredths. -/
lemma round2_div100 (K : ℤ) : round2 ((K : ℚ) / 100) = (K : ℚ) / 100 := by
  unfold round2
  have h100 : (100 : ℚ) * ((K : ℚ) / 100) = (K : ℚ) := by ring
  rw [h100, round_intCast]

/-- C3: the route summary generated for a session reports
`total_distance_km` equal to the sum of the `distance_from_prev_km` values
stored on that session's visit rows (a `NULL` distance counting as 0), and
`total_visits` equal to the number of those rows.  The hypothesis records
that every stored distance is an exact multiple of 1/100 — which
`create_visit` guarantees by rounding — so the generator's final 2-decimal
rounding of the sum is the identity. -/
theorem route_summary_totals (st : Store) (session : TSession)
    (h : ∀ v ∈ st.visits.filter (fun v => decide (v.session_id = session.id)),
      ∃ k : ℤ, v.distance_from_prev_km.getD 0 = (k : ℚ) / 100) :
    (_generate_route_summary st session).2.total_distance_km =
      ((st.visits.filter (fun v => decide (v.session_id = session.id))).map
        (fun v => v.distance_from_prev_km.getD 0)).sum ∧
    (_generate_route_summary st session).2.total_visits =
      (st.visits.filter (fun v => decide (v.session_id = session.id))).length := by
  have hperm := List.perm_insertionSort
    (fun a b : Visit => a.sequence_no ≤ b.sequence_no)
    (st.visits.filter (fun v => decide (v.session_id = session.id)))
  have hsum : (((st.visits.filter
      (fun v => decide (v.session_id = session.id))).insertionSort
        (fun a b => a.sequence_no ≤ b.sequence_no)).map
          (fun v => v.distance_from_prev_km.getD 0)).sum =
      ((st.visits.filter (fun v => decide (v.session_id = session.id))).map
        (fun v => v.distance_from_prev_km.getD 0)).sum :=
    (hperm.map (fun v => v.distance_from_prev_km.getD 0)).sum_eq
  have hlen : ((st.visits.filter
      (fun v => decide (v.session_id = session.id))).insertionSort
        (fun a b => a.sequence_no ≤ b.sequence_no)).length =
      (st.visits.filter (fun v => decide (v.session_id = session.id))).length :=
    hperm.length_eq
  obtain ⟨K, hK⟩ := sum_div100
    ((st.visits.filter (fun v => decide (v.session_id = session.id))).map
      (fun v => v.distance_from_prev_km.getD 0)) (by
    intro q hq
    obtain ⟨v, hv, hvq⟩ := List.mem_map.mp hq
    obtain ⟨k, hk⟩ := h v hv
    exact ⟨k, by rw [← hvq]; exact hk⟩)
  cases hfind : st.routes.find? (fun r => decide (r.session_id = session.id)) with
  | some r0 =>
    constructor
    · simp only [_generate_route_summary, hfind]
      rw [hsum, hK, round2_div100, ← hK]
    · simp only [_generate_route_summary, hfind]
      rw [hlen]
  | none =>
    constructor
    · simp only [_generate_route_summary, hfind]
      rw [hsum, hK, round2_div100, ← hK]
    · simp only [_generate_route_summary, hfind]
      rw [hlen]

def wVisitA : Visit :=
  { session_id := 1, user_id := 1, sequence_no := 1, customer_name := "A",
    notes := "", latitude := 13, longitude := 80, accuracy := 0,
    address := "a", visit_type := "customer_visit", start_time := 600,
    end_time := none, distance_from_prev_km := some 0 }

def wVisitB : Visit :=
  { session_id := 1, user_id := 1, sequence_no := 2, customer_name := "B",
    notes := "", latitude := 14, longitude := 81, accuracy := 0,
    address := "b", visit_type := "customer_visit", start_time := 700,
    end_time := none, distance_from_prev_km := some (55 / 100) }

def wStoreVisits : Store :=
  { users := [wUser], sessions := [wSess], liveLocations := [wLoc1],
    visits := [wVisitA, wVisitB], routes := [], nextSessionId := 2 }

/-- Witness for `route_summary_totals` on a concrete store with stored
distances 0 km and 0.55 km. -/
theorem route_summary_totals_witness :
    (_generate_route_summary wStoreVisits wSess).2.total_distance_km =
      ((wStoreVisits.visits.filter (fun v => decide (v.session_id = wSess.id))).map
        (fun v => v.distance_from_prev_km.getD 0)).sum ∧
    (_generate_route_summary wStoreVisits wSess).2.total_visits =
      (wStoreVisits.visits.filter (fun v => decide (v.session_id = wSess.id))).length :=
  route_summary_totals wStoreVisits wSess (by
    intro v hv
    have hv2 : v = wVisitA ∨ v = wVisitB := by
      simpa [wStoreVisits] using (List.mem_filter.mp hv).1
    rcases hv2 with hva | hvb
    · exact ⟨0, by rw [hva]; norm_num [wVisitA]⟩
    · exact ⟨55, by rw [hvb]; norm_num [wVisitB]⟩)

/-! C7: GPS rate limiting. -/

/-- C7: with a field-role caller inside tracking hours and in-range
coordinates, a GPS update finding `MAX_GPS_UPDATES_PER_MINUTE` (= 6) prior
accepted timestamps inside the rolling 60-second window fails with
`RateLimited`, leaving both the rate-limiter state and the store untouched;
once every prior timestamp has aged out of the window, the next update
passes the limiter, whose state becomes just the new timestamp. -/
theorem gps_update_rate_limited (rateSt : List ℚ) (st : Store) (user : UserRec)
    (hour : ℕ) (today : ℤ) (nowE : ℚ) (now : ℤ) (latitude longitude accuracy : ℚ)
    (hlat : -90 ≤ latitude ∧ latitude ≤ 90)
    (hlon : -180 ≤ longitude ∧ longitude ≤ 180)
    (hrole : VALID_TRACKING_ROLES.contains (get_user_role_str user) = true)
    (hhour : hour < 23) :
    (MAX_GPS_UPDATES_PER_MINUTE ≤
        (rateSt.filter (fun t => decide (nowE - t < 60))).length →
      gps_update rateSt st user hour today nowE now latitude longitude accuracy =
        (rateSt, .error .rateLimited)) ∧
    ((∀ t ∈ rateSt, 60 ≤ nowE - t) →
      _check_gps_rate rateSt nowE = .ok [nowE] ∧
      (gps_update rateSt st user hour today nowE now
        latitude longitude accuracy).1 = [nowE]) := by
  have hco : ¬¬(-90 ≤ latitude ∧ latitude ≤ 90 ∧
      -180 ≤ longitude ∧ longitude ≤ 180) :=
    not_not_intro ⟨hlat.1, hlat.2, hlon.1, hlon.2⟩
  have hfield : _require_field_role user = .ok () := by
    unfold _require_field_role
    rw [if_pos hrole]
  have hhour2 : _check_tracking_hours hour = .ok () := by
    unfold _check_tracking_hours
    rw [if_neg (by simp only [TRACKING_CUTOFF_HOUR]; omega)]
  constructor
  · intro h6
    have hrate : _check_gps_rate rateSt nowE = .error .rateLimited := by
      unfold _check_gps_rate
      rw [if_pos h6]
    unfold gps_update
    rw [if_neg hco, hfield, hhour2, hrate]
  · intro hold
    have hnil : rateSt.filter (fun t => decide (nowE - t < 60)) = [] :=
      List.filter_eq_nil_iff.mpr (by
        intro t ht
        simpa using not_lt.mpr (hold t ht))
    have hrate : _check_gps_rate rateSt nowE = .ok [nowE] := by
      unfold _check_gps_rate
      rw [hnil]
      rfl
    refine ⟨hrate, ?_⟩
    unfold gps_update
    rw [if_neg hco, hfield, hhour2, hrate]
    dsimp only
    cases get_active_session st user.id today with
    | none => rfl
    | some session =>
      dsimp only
      cases update_live_location st user.id session.id latitude longitude
          accuracy now with
      | error e => rfl
      | ok st2 => rfl

/-- Witness for `gps_update_rate_limited`: user 1 has 6 accepted updates at
second 0; a 7th at second 30 is rejected with state unchanged, while after
the window has passed an update at second 61 is accepted. -/
theorem gps_update_rate_limited_witness :
    gps_update [0, 0, 0, 0, 0, 0] wStore1 wUser 10 0 30 30 13 80 5 =
      ([0, 0, 0, 0, 0, 0], .error .rateLimited) ∧
    _check_gps_rate [0, 0, 0, 0, 0, 0] 61 = .ok [61] :=
  ⟨(gps_update_rate_limited [0, 0, 0, 0, 0, 0] wStore1 wUser 10 0 30 30 13 80 5
      (by norm_num) (by norm_num) (by decide) (by norm_num)).1
      (by norm_num [MAX_GPS_UPDATES_PER_MINUTE, List.filter]),
   ((gps_update_rate_limited [0, 0, 0, 0, 0, 0] wStore1 wUser 10 0 61 61 13 80 5
      (by norm_num) (by norm_num) (by decide) (by norm_num)).2 (by
        intro t ht
        have ht0 : t = 0 := by simpa using ht
        rw [ht0]
        norm_num)).1⟩

/-! C9: the admin live map. -/

def wUser2 : UserRec :=
  { id := 2, full_name := "V", username := "v", photograph := none,
    phone := "", email := "", role := "SERVICE_ENGINEER" }

def wLocActive : LiveLoc :=
  { user_id := 2, session_id := 9, latitude := 13, longitude := 80,
    accuracy := 3, is_active := true, last_updated := 500 }

/-- C9 (code bug evaluation): the service-level read of the admin map
returns exactly one joined row per user whose live location is marked
active and none for an inactive user — but the router call
`get_all_live_locations(db, role_filter=role)` passes a keyword argument
that the service signature `get_all_live_locations(db)` does not accept, so
under Python calling conventions every request to the endpoint raises
`TypeError` instead of returning those rows. -/
theorem admin_live_locations_call_mismatch :
    python_call_binds get_all_live_locations_params 1
      admin_live_locations_kwargs = false ∧
    get_all_live_locations
      { users := [wUser, wUser2], sessions := [wSess],
        liveLocations := [wLoc1, wLocActive], visits := [], routes := [],
        nextSessionId := 2 } =
      [{ user_id := 2, full_name := "V", username := "v", photograph := none,
         phone := "", email := "", latitude := 13, longitude := 80,
         accuracy := 3, last_updated := 500, is_active := true,
         session_id := 9 }] := by
  constructor
  · decide
  · decide

/-! C8: the two-visit end-to-end scenario. -/

set_option maxHeartbeats 1000000

/-- The great-circle distance between visit A (13.0800, 80.2700) and visit B
(13.0850, 80.2750) lies strictly between 0.775 km and 0.785 km.  (The spec's
"≈ 0.71 km" is not the haversine value; the true distance is ≈ 0.776 km.) -/
lemma haversine_scenario_bounds :
    (0.775 : ℝ) < haversine_distance 13.08 80.27 13.085 80.275 ∧
    haversine_distance 13.08 80.27 13.085 80.275 < 0.785 := by
  have hpi1 : (3.141592 : ℝ) < Real.pi := Real.pi_gt_d6
  have hpi2 : Real.pi < 3.141593 := Real.pi_lt_d6
  simp only [haversine_distance, radians]
  rw [show (13.085 : ℝ) - 13.08 = 0.005 by norm_num,
      show (80.275 : ℝ) - 80.27 = 0.005 by norm_num]
  obtain ⟨t, ht_def⟩ : ∃ y : ℝ, 0.005 * Real.pi / 180 / 2 = y := ⟨_, rfl⟩
  rw [ht_def]
  obtain ⟨x, hx_def⟩ : ∃ y : ℝ, Real.sin t = y := ⟨_, rfl⟩
  rw [hx_def]
  obtain ⟨u, hu_def⟩ : ∃ y : ℝ, (13.08 : ℝ) * Real.pi / 180 = y := ⟨_, rfl⟩
  rw [hu_def]
  obtain ⟨v, hv_def⟩ : ∃ y : ℝ, (13.085 : ℝ) * Real.pi / 180 = y := ⟨_, rfl⟩
  rw [hv_def]
  obtain ⟨cu, hcu_def⟩ : ∃ y : ℝ, Real.cos u = y := ⟨_, rfl⟩
  rw [hcu_def]
  obtain ⟨cv, hcv_def⟩ : ∃ y : ℝ, Real.cos v = y := ⟨_, rfl⟩
  rw [hcv_def]
  obtain ⟨a, ha_def⟩ : ∃ y : ℝ, x ^ 2 + cu * cv * x ^ 2 = y := ⟨_, rfl⟩
  rw [ha_def]
  -- bounds on the half angle t = pi/72000
  have ht1 : (0.000043633222 : ℝ) < t := by
    rw [← ht_def]; linarith only [hpi1]
  have ht2 : t < 0.0000436332370 := by
    rw [← ht_def]; linarith only [hpi2]
  have ht0 : (0 : ℝ) < t := by linarith only [ht1]
  -- bounds on x = sin t
  have hx_up : x < 0.0000436332370 := by
    rw [← hx_def]
    calc Real.sin t < t := Real.sin_lt ht0
      _ < _ := ht2
  have hx_lo : (0.000043633221 : ℝ) < x := by
    have h3 := Real.sin_gt_sub_cube ht0 (by linarith only [ht2] : t ≤ 1)
    have hcube : t ^ 3 < 0.00000000000008308 := by
      calc t ^ 3 < (0.0000436332370 : ℝ) ^ 3 :=
            pow_lt_pow_left₀ ht2 (le_of_lt ht0) (by norm_num)
        _ < 0.00000000000008308 := by norm_num
    rw [← hx_def]
    linarith only [h3, hcube, ht1]
  have hx0 : (0 : ℝ) < x := by linarith only [hx_lo]
  -- bounds on u and cos u
  have hu1 : (0.22828901 : ℝ) < u := by
    rw [← hu_def]; linarith only [hpi1]
  have hu2 : u < 0.22828910 := by
    rw [← hu_def]; linarith only [hpi2]
  have hu0 : (0 : ℝ) < u := by linarith only [hu1]
  have hcbu := Real.cos_bound (x := u) (by rw [abs_of_pos hu0]; linarith only [hu2])
  rw [abs_of_pos hu0] at hcbu
  obtain ⟨hcbu1, hcbu2⟩ := abs_le.mp hcbu
  have hu_sq_lo : (0.05211586 : ℝ) < u ^ 2 := by
    calc (0.05211586 : ℝ) < 0.22828901 ^ 2 := by norm_num
      _ < u ^ 2 := pow_lt_pow_left₀ hu1 (by norm_num) (by norm_num)
  have hu_sq_hi : u ^ 2 < 0.05211592 := by
    calc u ^ 2 < (0.22828910 : ℝ) ^ 2 :=
          pow_lt_pow_left₀ hu2 (le_of_lt hu0) (by norm_num)
      _ < 0.05211592 := by norm_num
  have hu_p4 : u ^ 4 < 0.0027161 := by
    have h4 : (u ^ 2) ^ 2 < (0.05211592 : ℝ) ^ 2 :=
      pow_lt_pow_left₀ hu_sq_hi (sq_nonneg u) (by norm_num)
    calc u ^ 4 = (u ^ 2) ^ 2 := by ring
      _ < (0.05211592 : ℝ) ^ 2 := h4
      _ < 0.0027161 := by norm_num
  have hcu_lo : (0.9738005 : ℝ) < cu := by
    rw [← hcu_def]; linarith only [hcbu1, hu_sq_hi, hu_p4]
  have hcu_hi : cu < 0.9740837 := by
    rw [← hcu_def]; linarith only [hcbu2, hu_sq_lo, hu_p4]
  -- bounds on v and cos v
  have hv1 : (0.22837628 : ℝ) < v := by
    rw [← hv_def]; linarith only [hpi1]
  have hv2 : v < 0.22837636 := by
    rw [← hv_def]; linarith only [hpi2]
  have hv0 : (0 : ℝ) < v := by linarith only [hv1]
  have hcbv := Real.cos_bound (x := v) (by rw [abs_of_pos hv0]; linarith only [hv2])
  rw [abs_of_pos hv0] at hcbv
  obtain ⟨hcbv1, hcbv2⟩ := abs_le.mp hcbv
  have hv_sq_lo : (0.05215569 : ℝ) < v ^ 2 := by
    calc (0.05215569 : ℝ) < 0.22837628 ^ 2 := by norm_num
      _ < v ^ 2 := pow_lt_pow_left₀ hv1 (by norm_num) (by norm_num)
  have hv_sq_hi : v ^ 2 < 0.05215577 := by
    calc v ^ 2 < (0.22837636 : ℝ) ^ 2 :=
          pow_lt_pow_left₀ hv2 (le_of_lt hv0) (by norm_num)
      _ < 0.05215577 := by norm_num
  have hv_p4 : v ^ 4 < 0.0027203 := by
    have h4 : (v ^ 2) ^ 2 < (0.05215577 : ℝ) ^ 2 :=
      pow_lt_pow_left₀ hv_sq_hi (sq_nonneg v) (by norm_num)
    calc v ^ 4 = (v ^ 2) ^ 2 := by ring
      _ < (0.05215577 : ℝ) ^ 2 := h4
      _ < 0.0027203 := by norm_num
  have hcv_lo : (0.9737803 : ℝ) < cv := by
    rw [← hcv_def]; linarith only [hcbv1, hv_sq_hi, hv_p4]
  have hcv_hi : cv < 0.9740640 := by
    rw [← hcv_def]; linarith only [hcbv2, hv_sq_lo, hv_p4]
  -- product of cosines
  have hcc_lo : (0.9482676 : ℝ) < cu * cv := by
    have h := mul_lt_mul'' hcu_lo hcv_lo (by norm_num) (by norm_num)
    calc (0.9482676 : ℝ) < 0.9738005 * 0.9737803 := by norm_num
      _ < cu * cv := h
  have hcc_hi : cu * cv < 0.9488203 := by
    have h := mul_lt_mul'' hcu_hi hcv_hi
      (by linarith only [hcu_lo]) (by linarith only [hcv_lo])
    calc cu * cv < 0.9740837 * 0.9740640 := h
      _ < 0.9488203 := by norm_num
  -- bounds on x^2 and a
  have hx_sq_lo : (0.0000000019038579 : ℝ) < x ^ 2 := by
    calc (0.0000000019038579 : ℝ) < 0.000043633221 ^ 2 := by norm_num
      _ < x ^ 2 := pow_lt_pow_left₀ hx_lo (by norm_num) (by norm_num)
  have hx_sq_hi : x ^ 2 < 0.0000000019038594 := by
    calc x ^ 2 < (0.0000436332370 : ℝ) ^ 2 :=
          pow_lt_pow_left₀ hx_up (le_of_lt hx0) (by norm_num)
      _ < 0.0000000019038594 := by norm_num
  have hcx_lo : (0.9482676 : ℝ) * 0.0000000019038579 < cu * cv * x ^ 2 :=
    mul_lt_mul'' hcc_lo hx_sq_lo (by norm_num) (by norm_num)
  have hcx_hi : cu * cv * x ^ 2 < 0.9488203 * 0.0000000019038594 :=
    mul_lt_mul'' hcc_hi hx_sq_hi
      (by linarith only [hcc_lo]) (sq_nonneg x)
  have ha_lo : (0.000000003709224 : ℝ) < a := by
    rw [← ha_def]; linarith only [hx_sq_lo, hcx_lo]
  have ha_hi : a < 0.000000003710281 := by
    rw [← ha_def]; linarith only [hx_sq_hi, hcx_hi]
  have ha_pos : (0 : ℝ) < a := by linarith only [ha_lo]
  have ha_lt1 : a < 1 := by linarith only [ha_hi]
  -- square roots
  have hra_sq : Real.sqrt a ^ 2 = a := Real.sq_sqrt (le_of_lt ha_pos)
  have hra_nn : (0 : ℝ) ≤ Real.sqrt a := Real.sqrt_nonneg a
  have hra_lo : (0.0000609033 : ℝ) < Real.sqrt a := by
    by_contra hc
    push_neg at hc
    have h2 : Real.sqrt a ^ 2 ≤ (0.0000609033 : ℝ) ^ 2 :=
      pow_le_pow_left₀ hra_nn hc 2
    rw [hra_sq] at h2
    have h3 : (0.0000609033 : ℝ) ^ 2 < 0.000000003709224 := by norm_num
    linarith only [h2, h3, ha_lo]
  have hra_hi : Real.sqrt a < 0.0000609122 := by
    by_contra hc
    push_neg at hc
    have h2 : (0.0000609122 : ℝ) ^ 2 ≤ Real.sqrt a ^ 2 :=
      pow_le_pow_left₀ (by norm_num) hc 2
    rw [hra_sq] at h2
    have h3 : (0.000000003710281 : ℝ) < (0.0000609122 : ℝ) ^ 2 := by norm_num
    linarith only [h2, h3, ha_hi]
  have hrb_sq : Real.sqrt (1 - a) ^ 2 = 1 - a := Real.sq_sqrt (by linarith only [ha_lt1])
  have hrb_nn : (0 : ℝ) ≤ Real.sqrt (1 - a) := Real.sqrt_nonneg (1 - a)
  have hrb_pos : (0 : ℝ) < Real.sqrt (1 - a) :=
    Real.sqrt_pos.mpr (by linarith only [ha_lt1])
  have hrb_le1 : Real.sqrt (1 - a) ≤ 1 :=
    Real.sqrt_le_one.mpr (by linarith only [ha_pos])
  have hrb_lo : 1 - a ≤ Real.sqrt (1 - a) := by
    have h := mul_nonneg hrb_nn
      (by linarith only [hrb_le1] : (0 : ℝ) ≤ 1 - Real.sqrt (1 - a))
    have h2 : Real.sqrt (1 - a) * (1 - Real.sqrt (1 - a)) =
        Real.sqrt (1 - a) - Real.sqrt (1 - a) ^ 2 := by ring
    rw [h2, hrb_sq] at h
    linarith only [h]
  -- the arctan argument
  have htt_pos : (0 : ℝ) < Real.sqrt a / Real.sqrt (1 - a) :=
    div_pos (by linarith only [hra_lo]) hrb_pos
  have htt_lo : (0.0000609033 : ℝ) < Real.sqrt a / Real.sqrt (1 - a) := by
    have h : Real.sqrt a ≤ Real.sqrt a / Real.sqrt (1 - a) := by
      rw [le_div_iff₀ hrb_pos]
      have := mul_le_mul_of_nonneg_left hrb_le1 hra_nn
      simpa using this
    linarith only [h, hra_lo]
  have htt_hi : Real.sqrt a / Real.sqrt (1 - a) < 0.0000609123 := by
    rw [div_lt_iff₀ hrb_pos]
    have h1 : (0.0000609123 : ℝ) * (1 - a) ≤
        0.0000609123 * Real.sqrt (1 - a) :=
      mul_le_mul_of_nonneg_left hrb_lo (by norm_num)
    have h2 : (0.0000609122 : ℝ) < 0.0000609123 * (1 - a) := by
      linarith only [ha_hi]
    linarith only [h1, h2, hra_hi]
  have htt_sq_hi : (Real.sqrt a / Real.sqrt (1 - a)) ^ 2 < 0.0000000037104 := by
    calc (Real.sqrt a / Real.sqrt (1 - a)) ^ 2 < (0.0000609123 : ℝ) ^ 2 :=
          pow_lt_pow_left₀ htt_hi (le_of_lt htt_pos) (by norm_num)
      _ < 0.0000000037104 := by norm_num
  -- arctan bounds
  have hA_pos : (0 : ℝ) < Real.arctan (Real.sqrt a / Real.sqrt (1 - a)) := by
    have h := Real.arctan_strictMono htt_pos
    rwa [Real.arctan_zero] at h
  have hA_hi : Real.arctan (Real.sqrt a / Real.sqrt (1 - a)) < 0.0000609123 := by
    have h2 := Real.lt_tan hA_pos (Real.arctan_lt_pi_div_two _)
    rw [Real.tan_arctan] at h2
    linarith only [h2, htt_hi]
  have hA_lo : (0.0000609032 : ℝ) <
      Real.arctan (Real.sqrt a / Real.sqrt (1 - a)) := by
    have hsinA := Real.sin_arctan (Real.sqrt a / Real.sqrt (1 - a))
    have hsA_lt := Real.sin_lt hA_pos
    have hden_pos : (0 : ℝ) <
        Real.sqrt (1 + (Real.sqrt a / Real.sqrt (1 - a)) ^ 2) :=
      Real.sqrt_pos.mpr (by positivity)
    have hsq1 : Real.sqrt (1 + (Real.sqrt a / Real.sqrt (1 - a)) ^ 2) <
        1 + (Real.sqrt a / Real.sqrt (1 - a)) ^ 2 / 2 := by
      have h5 : (0 : ℝ) < ((Real.sqrt a / Real.sqrt (1 - a)) ^ 2) ^ 2 :=
        pow_pos (pow_pos htt_pos 2) 2
      have h4 : 1 + (Real.sqrt a / Real.sqrt (1 - a)) ^ 2 <
          (1 + (Real.sqrt a / Real.sqrt (1 - a)) ^ 2 / 2) ^ 2 := by
        have hexp : (1 + (Real.sqrt a / Real.sqrt (1 - a)) ^ 2 / 2) ^ 2 =
            1 + (Real.sqrt a / Real.sqrt (1 - a)) ^ 2 +
              ((Real.sqrt a / Real.sqrt (1 - a)) ^ 2) ^ 2 / 4 := by ring
        rw [hexp]
        linarith only [h5]
      calc Real.sqrt (1 + (Real.sqrt a / Real.sqrt (1 - a)) ^ 2) <
            Real.sqrt ((1 + (Real.sqrt a / Real.sqrt (1 - a)) ^ 2 / 2) ^ 2) :=
            Real.sqrt_lt_sqrt (by positivity) h4
        _ = 1 + (Real.sqrt a / Real.sqrt (1 - a)) ^ 2 / 2 :=
            Real.sqrt_sq (by positivity)
    have hfrac : (0.0000609032 : ℝ) <
        (Real.sqrt a / Real.sqrt (1 - a)) /
          Real.sqrt (1 + (Real.sqrt a / Real.sqrt (1 - a)) ^ 2) := by
      rw [lt_div_iff₀ hden_pos]
      have h1 : (0.0000609032 : ℝ) *
          Real.sqrt (1 + (Real.sqrt a / Real.sqrt (1 - a)) ^ 2) <
          0.0000609032 * (1 + (Real.sqrt a / Real.sqrt (1 - a)) ^ 2 / 2) :=
        mul_lt_mul_of_pos_left hsq1 (by norm_num)
      have h2 : (0.0000609032 : ℝ) *
          (1 + (Real.sqrt a / Real.sqrt (1 - a)) ^ 2 / 2) < 0.0000609033 := by
        linarith only [htt_sq_hi]
      linarith only [h1, h2, htt_lo]
    rw [← hsinA] at hfrac
    linarith only [hfrac, hsA_lt]
  -- assemble
  have hatan : atan2 (Real.sqrt a) (Real.sqrt (1 - a)) =
      Real.arctan (Real.sqrt a / Real.sqrt (1 - a)) := by
    simp only [atan2]
    rw [if_pos hrb_pos]
  rw [hatan]
  constructor
  · linarith only [hA_lo]
  · linarith only [hA_hi]

/-- Rounding the real 0 to two decimals gives the rational 0. -/
lemma round2R_zero : round2R 0 = 0 := by
  unfold round2R
  rw [mul_zero, round_zero]
  norm_num

/-- Any real strictly between 0.775 and 0.785 rounds to the stored value
0.78. -/
lemma round2R_between (x : ℝ) (h1 : (0.775 : ℝ) < x) (h2 : x < 0.785) :
    round2R x = 78 / 100 := by
  unfold round2R
  have hround : round (100 * x) = 78 := by
    rw [round_eq]
    have h3 : (78 : ℤ) ≤ ⌊100 * x + 1 / 2⌋ := by
      apply Int.le_floor.mpr
      push_cast
      linarith
    have h4 : ⌊100 * x + 1 / 2⌋ < 79 := by
      apply Int.floor_lt.mpr
      push_cast
      linarith
    omega
  rw [hround]
  norm_num

def sUser : UserRec :=
  { id := 1, full_name := "U", username := "u", photograph := none,
    phone := "", email := "", role := "SALESMAN" }

def sStore0 : Store :=
  { users := [sUser], sessions := [], liveLocations := [], visits := [],
    routes := [], nextSessionId := 1 }

def sSess : TSession :=
  { id := 1, user_id := 1, attendance_id := none, role := "SALESMAN",
    check_in_time := 540, check_out_time := none, status := .active,
    session_date := 0, auto_stopped := false }

def sLoc : LiveLoc :=
  { user_id := 1, session_id := 1, latitude := 0, longitude := 0,
    accuracy := 0, is_active := false, last_updated := 540 }

def sStore1 : Store :=
  { users := [sUser], sessions := [sSess], liveLocations := [sLoc],
    visits := [], routes := [], nextSessionId := 2 }

/-- The visit row created by the check-in at (13.08, 80.27); the first visit
of the session, so its stored distance is `round(0, 2)`. -/
noncomputable def vA : Visit :=
  { session_id := 1, user_id := 1, sequence_no := 1,
    customer_name := "Customer A".trim.take 255,
    notes := "".trim.take 2000,
    latitude := 13.08, longitude := 80.27, accuracy := 0,
    address := if "".trim.take 500 = "" then coord_text 13.08 80.27
      else "".trim.take 500,
    visit_type := "customer_visit", start_time := 600, end_time := none,
    distance_from_prev_km := some (round2R 0) }

noncomputable def sStore2 : Store :=
  { users := [sUser], sessions := [sSess], liveLocations := [sLoc],
    visits := [vA], routes := [], nextSessionId := 2 }

/-- The visit row created by the check-in at (13.085, 80.275); its stored
distance is the rounded haversine distance from visit A. -/
noncomputable def vB : Visit :=
  { session_id := 1, user_id := 1, sequence_no := 2,
    customer_name := "Customer B".trim.take 255,
    notes := "".trim.take 2000,
    latitude := 13.085, longitude := 80.275, accuracy := 0,
    address := if "".trim.take 500 = "" then coord_text 13.085 80.275
      else "".trim.take 500,
    visit_type := "customer_visit", start_time := 700, end_time := none,
    distance_from_prev_km := some (round2R (haversine_distance
      ((13.08 : ℚ) : ℝ) ((80.27 : ℚ) : ℝ) ((13.085 : ℚ) : ℝ)
      ((80.275 : ℚ) : ℝ))) }

noncomputable def sStore3 : Store :=
  { users := [sUser], sessions := [sSess], liveLocations := [sLoc],
    visits := [vA, vB], routes := [], nextSessionId := 2 }

lemma s_step0 : create_tracking_session sStore0 sUser none 0 540 =
    .ok (sStore1, sSess) := by decide

lemma s_stepA : create_visit sStore1 sSess 1 13.08 80.27 "Customer A" "" 0
    "customer_visit" "" 600 = .ok (sStore2, vA) := by
  unfold create_visit
  rw [if_neg (by norm_num [validate_coordinates] :
    ¬(validate_coordinates (13.08 : ℚ) (80.27 : ℚ) = false))]
  rfl

lemma s_stepB : create_visit sStore2 sSess 1 13.085 80.275 "Customer B" "" 0
    "customer_visit" "" 700 = .ok (sStore3, vB) := by
  unfold create_visit
  rw [if_neg (by norm_num [validate_coordinates] :
    ¬(validate_coordinates (13.085 : ℚ) (80.275 : ℚ) = false))]
  rfl

lemma s_cast : haversine_distance ((13.08 : ℚ) : ℝ) ((80.27 : ℚ) : ℝ)
    ((13.085 : ℚ) : ℝ) ((80.275 : ℚ) : ℝ) =
    haversine_distance 13.08 80.27 13.085 80.275 := by
  norm_num

lemma s_distB : vB.distance_from_prev_km =
    some (78 / 100 : ℚ) := by
  show some (round2R (haversine_distance ((13.08 : ℚ) : ℝ) ((80.27 : ℚ) : ℝ)
    ((13.085 : ℚ) : ℝ) ((80.275 : ℚ) : ℝ))) = some (78 / 100 : ℚ)
  rw [s_cast, round2R_between _ haversine_scenario_bounds.1
    haversine_scenario_bounds.2]

lemma s_total : (end_tracking_session sStore3 sSess false 800).2.total_distance_km =
    78 / 100 := by
  have h1 : (end_tracking_session sStore3 sSess false 800).2.total_distance_km =
      round2 ((vA.distance_from_prev_km.getD 0) +
        ((vB.distance_from_prev_km.getD 0) + 0)) := rfl
  rw [h1]
  have hA : vA.distance_from_prev_km = some (0 : ℚ) := by
    show some (round2R 0) = some (0 : ℚ)
    rw [round2R_zero]
  rw [hA, s_distB]
  show round2 ((0 : ℚ) + (78 / 100 + 0)) = 78 / 100
  rw [show (0 : ℚ) + (78 / 100 + 0) = ((78 : ℤ) : ℚ) / 100 by norm_num,
    round2_div100]
  norm_num

lemma s_count : (end_tracking_session sStore3 sSess false 800).2.total_visits = 2 :=
  rfl

/-- C8 counterexample: in the spec's end-to-end scenario (start a session,
check in to visit A at (13.0800, 80.2700), then visit B at (13.0850,
80.2750), then stop), the generated route summary reports
`total_distance_km` = 0.78 km, not ≈ 0.71 km: the claimed value differs from
the actual one by 0.07. -/
theorem scenario_distance_not_071 :
    create_tracking_session sStore0 sUser none 0 540 = .ok (sStore1, sSess) ∧
    create_visit sStore1 sSess 1 13.08 80.27 "Customer A" "" 0
      "customer_visit" "" 600 = .ok (sStore2, vA) ∧
    create_visit sStore2 sSess 1 13.085 80.275 "Customer B" "" 0
      "customer_visit" "" 700 = .ok (sStore3, vB) ∧
    (end_tracking_session sStore3 sSess false 800).2.total_distance_km =
      78 / 100 ∧
    ¬(|(end_tracking_session sStore3 sSess false 800).2.total_distance_km -
        71 / 100| ≤ 1 / 50) := by
  refine ⟨s_step0, s_stepA, s_stepB, s_total, ?_⟩
  rw [s_total]
  intro hc
  rw [show (78 : ℚ) / 100 - 71 / 100 = 7 / 100 by norm_num] at hc
  rw [show |(7 : ℚ) / 100| = 7 / 100 by norm_num] at hc
  norm_num at hc

/-- C8 (amended): in the end-to-end scenario the stored distance of visit A
is 0, the stored distance of visit B is the rounded haversine distance from
A — which lies strictly between 0.775 km and 0.785 km, hence is stored as
0.78 — and the route summary generated at session stop reports
`total_visits = 2` and `total_distance_km = 0.78` (≈ 0.78, not ≈ 0.71). -/
theorem scenario_route_summary :
    create_tracking_session sStore0 sUser none 0 540 = .ok (sStore1, sSess) ∧
    create_visit sStore1 sSess 1 13.08 80.27 "Customer A" "" 0
      "customer_visit" "" 600 = .ok (sStore2, vA) ∧
    create_visit sStore2 sSess 1 13.085 80.275 "Customer B" "" 0
      "customer_visit" "" 700 = .ok (sStore3, vB) ∧
    vA.distance_from_prev_km = some 0 ∧
    vB.distance_from_prev_km = some (round2R (haversine_distance
      13.08 80.27 13.085 80.275)) ∧
    (0.775 : ℝ) < haversine_distance 13.08 80.27 13.085 80.275 ∧
    haversine_distance 13.08 80.27 13.085 80.275 < 0.785 ∧
    vB.distance_from_prev_km = some (78 / 100) ∧
    (end_tracking_session sStore3 sSess false 800).2.total_visits = 2 ∧
    (end_tracking_session sStore3 sSess false 800).2.total_distance_km =
      78 / 100 := by
  refine ⟨s_step0, s_stepA, s_stepB, ?_, ?_, haversine_scenario_bounds.1,
    haversine_scenario_bounds.2, s_distB, s_count, s_total⟩
  · show some (round2R 0) = some (0 : ℚ)
    rw [round2R_zero]
  · show some (round2R (haversine_distance ((13.08 : ℚ) : ℝ)
      ((80.27 : ℚ) : ℝ) ((13.085 : ℚ) : ℝ) ((80.275 : ℚ) : ℝ))) = _
    rw [s_cast]

end UnifiedTracking
